import Mathlib

set_option maxRecDepth 100000

/-!
Verification of the authentication and request-integrity core of the
esports tournament-registration platform: the session token codec and CSRF
token binder (src/unnamed/part_000, the repository's auth library), the
route-level CSRF guard (src/src/lib/csrf.ts), the fixed-window rate limiter
(src/src/lib/rate-limit.ts) and the request middleware (src/unnamed/part_005).

The TypeScript sources are shallowly embedded:
* JS numbers are modelled as exact integers (`Int`/`Nat`); the code only
  handles user ids, millisecond timestamps and small counters, all far below
  2^53, so exact-integer arithmetic is faithful.
* The wall clock (`Date.now()`) is an explicit `now : Nat` parameter
  (milliseconds); module state (the rate-limit map) is threaded explicitly.
* JS exceptions are modelled with `Except`: each function body that the
  source wraps in try/catch is an `Except`-valued definition, and the
  exported function applies the catch (error becomes `false`/`null`).
* Library calls are modelled by executable stand-ins: the HMAC-SHA256 hex
  digest is a deterministic keyed digest whose output consists of decimal
  digits (no claim below relies on unforgeability, only on determinism and
  on the digest containing no `:` and no space); base64 is implemented in
  full; the jsonwebtoken compact encoding is replaced by an injective
  length-prefixed field encoding with the same verify-time checks
  (signature first, then expiry) and the same catch-to-null behaviour.
-/

/-! ## JavaScript string and number primitives -/

/-- The ten decimal digit characters; `digitChar d` is the character JS uses
when rendering the decimal digit `d`. -/
def digitChar (d : Nat) : Char := ['0','1','2','3','4','5','6','7','8','9'].getD d '0'

/-- Fuel-indexed decimal rendering of a natural number (fuel keeps the
recursion structural so that terms reduce inside the kernel). -/
def natDigitsAux : Nat → Nat → List Char
  | 0, _ => []
  | fuel+1, n => if n < 10 then [digitChar n] else natDigitsAux fuel (n / 10) ++ [digitChar (n % 10)]

/-- Decimal digit string of a natural number, as JS renders one. -/
def natDigits (n : Nat) : List Char := natDigitsAux (n + 1) n

/-- JS decimal rendering of a natural number (template literal on a
nonnegative integer-valued number). -/
def natToDecimal (n : Nat) : String := String.mk (natDigits n)

/-- JS decimal rendering of an integer-valued number: a minus sign followed
by the digits when negative. -/
def intToDecimal (i : Int) : String :=
  if i < 0 then "-" ++ natToDecimal i.natAbs else natToDecimal i.natAbs

/-- Consume the maximal leading run of decimal digits, accumulating their
value; models the digit-consuming loop of JS `parseInt`. -/
def parseDigitsAux (acc : Nat) : List Char → Nat × List Char
  | c :: cs => if c.isDigit then parseDigitsAux (10 * acc + (c.toNat - 48)) cs else (acc, c :: cs)
  | [] => (acc, [])

/-- Value of the maximal leading digit run together with the rest of the
input; `none` when the input does not start with a digit. -/
def parseNatPrefixPair (l : List Char) : Option (Nat × List Char) :=
  match l with
  | c :: _ => if c.isDigit then some (parseDigitsAux 0 l) else none
  | [] => none

/-- Leading whitespace skipping of JS `parseInt`. -/
def skipWs (l : List Char) : List Char := l.dropWhile Char.isWhitespace

/-- JS `parseInt(s)` for radix-10 inputs: skip whitespace, optional sign,
then the maximal digit run; `none` models `NaN` (no digits). The `0x` hex
prefix of `parseInt` is not modelled: no token field in this codebase ever
carries one, and no theorem below depends on the parse of such a field. -/
def parseIntJS (s : String) : Option Int :=
  match skipWs s.data with
  | [] => none
  | c :: rest =>
    if c = '-' then (parseNatPrefixPair rest).map (fun p => -(p.1 : Int))
    else if c = '+' then (parseNatPrefixPair rest).map (fun p => (p.1 : Int))
    else (parseNatPrefixPair (c :: rest)).map (fun p => (p.1 : Int))

/-- Split a character list at every occurrence of `sep`; the JS
`String.prototype.split` semantics for a one-character separator (always at
least one field, empty fields kept). -/
def splitCh (sep : Char) : List Char → List (List Char)
  | [] => [[]]
  | c :: cs =>
    let r := splitCh sep cs
    if c = sep then [] :: r else (c :: r.headD []) :: r.tail

/-- JS `s.split(sep)` for a one-character separator string. -/
def jsSplit (s : String) (sep : Char) : List String := (splitCh sep s.data).map String.mk

/-- JS truthiness of a string-or-undefined value: `undefined` and the empty
string are falsy. -/
def jsTruthy : Option String → Bool
  | none => false
  | some s => !(s = "")

/-- JS `a || b` on string-or-undefined values. -/
def jsOr (a b : Option String) : Option String := if jsTruthy a then a else b

/-- JS string coercion of a string-or-undefined value: interpolating
`undefined` into a template literal yields the text "undefined". -/
def undefStr : Option String → String
  | none => "undefined"
  | some s => s

/-- JS `s.startsWith(p)`. -/
def jsStartsWith (s p : String) : Bool := p.data.isPrefixOf s.data

/-- JS `s.toUpperCase()` (ASCII case mapping, which is all the sources use). -/
def jsToUpperStr (s : String) : String := String.mk (s.data.map Char.toUpper)

/-- Replace the first occurrence of `pat` in the list by `rep`; helper for
`jsReplaceFirst`. -/
def replaceFirstAux (pat rep : List Char) : List Char → List Char
  | [] => if pat.isPrefixOf ([] : List Char) then rep else []
  | c :: rest =>
    if pat.isPrefixOf (c :: rest) then rep ++ (c :: rest).drop pat.length
    else c :: replaceFirstAux pat rep rest

/-- JS `s.replace(pat, rep)` with a string pattern: only the first
occurrence is replaced. -/
def jsReplaceFirst (s pat rep : String) : String :=
  String.mk (replaceFirstAux pat.data rep.data s.data)

/-! ## Stand-in keyed digest (crypto.createHmac("sha256", ...).digest("hex")) -/

/-- Deterministic stand-in for a cryptographic digest value: a rolling hash
of the input, reduced modulo a prime. -/
def strHash (s : String) : Nat := s.data.foldl (fun a c => (a * 131 + c.toNat) % 1000000007) 7

/-- Stand-in for node's `crypto.createHmac("sha256", secret).update(data).digest("hex")`:
a deterministic keyed digest rendered in decimal (the real digest is
lowercase hex). The properties the development uses — determinism, and an
output free of `:` and of whitespace — hold of the real digest as well. -/
def hmacHex (secret data : String) : String := natToDecimal (strHash (secret ++ "|" ++ data))

/-! ## Base64 (node Buffer.from(s).toString("base64") / Buffer.from(t, "base64")) -/

/-- The base64 alphabet. -/
def b64Alphabet : List Char :=
  "ABCDEFGHIJKLMNOPQRSTUVWXYZabcdefghijklmnopqrstuvwxyz0123456789+/".data

/-- Character of a six-bit group. -/
def sextetChar (n : Nat) : Char := b64Alphabet.getD n 'A'

/-- Six-bit value of an alphabet character; `none` for non-alphabet
characters (node's decoder skips those). -/
def charSextet (c : Char) : Option Nat := b64Alphabet.findIdx? (· == c)

/-- Pack bytes into six-bit groups (big-endian base64 bit layout). -/
def toSextets : List Nat → List Nat
  | b1 :: b2 :: b3 :: rest =>
      (b1 / 4) :: ((b1 % 4) * 16 + b2 / 16) :: ((b2 % 16) * 4 + b3 / 64) :: (b3 % 64) :: toSextets rest
  | [b1, b2] => [b1 / 4, (b1 % 4) * 16 + b2 / 16, (b2 % 16) * 4]
  | [b1] => [b1 / 4, (b1 % 4) * 16]
  | [] => []

/-- Unpack six-bit groups back into bytes. -/
def fromSextets : List Nat → List Nat
  | s1 :: s2 :: s3 :: s4 :: rest =>
      (s1 * 4 + s2 / 16) :: ((s2 % 16) * 16 + s3 / 4) :: ((s3 % 4) * 64 + s4) :: fromSextets rest
  | [s1, s2, s3] => [s1 * 4 + s2 / 16, (s2 % 16) * 16 + s3 / 4]
  | [s1, s2] => [s1 * 4 + s2 / 16]
  | _ => []

/-- Padding characters appended by the encoder, by input length mod 3. -/
def b64Pad (m : Nat) : List Char :=
  if m = 1 then ['=', '='] else if m = 2 then ['='] else []

/-- Node `Buffer.from(s).toString("base64")`. The strings this codebase
encodes are ASCII, so a character is one byte and `Char.toNat` is its byte. -/
def b64encode (s : String) : String :=
  String.mk ((toSextets (s.data.map Char.toNat)).map sextetChar ++ b64Pad (s.data.length % 3))

/-- Node `Buffer.from(t, "base64").toString("utf-8")`: total — characters
outside the alphabet (including `=` and arbitrary garbage) are skipped, so
every input decodes to some string and the decoder never throws. -/
def b64decode (s : String) : String :=
  String.mk ((fromSextets (s.data.filterMap charSextet)).map Char.ofNat)

/-! ## src/unnamed/part_000 — session token codec and CSRF binder (lib/auth) -/

/-- Stand-in for the mandatory JWT signing secret (process.env.JWT_SECRET;
the module throws at load when it is absent, so at run time it is a fixed
nonempty string). -/
def JWT_SECRET : String := "jwt-server-secret"

/-- Stand-in for the CSRF signing secret (process.env.CSRF_SECRET, or an
ephemeral random value; either way fixed for the process lifetime). -/
def CSRF_SECRET : String := "csrf-server-secret"

/-- The TokenPayload interface of part_000. -/
structure TokenPayload where
  id : Int
  email : String
  username : String
  is_host : Bool
deriving DecidableEq, Repr

/-- Argument shape of `generateToken`: `is_host` is optional in the source
(`is_host?: boolean`, defaulted by `user.is_host || false`). -/
structure GenUser where
  id : Int
  email : String
  username : String
  is_host : Option Bool
deriving DecidableEq, Repr

/-- Length-prefixed field encoding, the reversible serialization underlying
the modelled jsonwebtoken compact form: digits of the length, a colon, then
the raw field (so a field may contain any character, including colons). -/
def encodeField (s : String) : String := natToDecimal s.data.length ++ ":" ++ s

/-- Parse one length-prefixed field, returning it and the rest of the input. -/
def parseField (l : List Char) : Option (String × List Char) :=
  match parseNatPrefixPair l with
  | none => none
  | some (n, rest) =>
    if rest.headD ' ' = ':' then
      if n ≤ rest.tail.length then some (String.mk (rest.tail.take n), rest.tail.drop n)
      else none
    else none

/-- Full-string natural-number parse (strict: digits only, nonempty). -/
def parseNatFull (s : String) : Option Nat :=
  match parseNatPrefixPair s.data with
  | some (n, []) => some n
  | _ => none

/-- Full-string integer parse (strict). -/
def parseIntFull (s : String) : Option Int :=
  if s.data.headD ' ' = '-' then
    match parseNatPrefixPair s.data.tail with
    | some (n, []) => some (-(n : Int))
    | _ => none
  else (parseNatFull s).map (fun n => (n : Int))

/-- Signing input of the modelled JWT: the payload fields together with the
issued-at and expiry timestamps (seconds), length-prefixed. -/
def jwtCore (p : TokenPayload) (iat exp : Nat) : String :=
  encodeField (intToDecimal p.id) ++ encodeField p.email ++ encodeField p.username ++
    encodeField (if p.is_host then "T" else "F") ++
    encodeField (natToDecimal iat) ++ encodeField (natToDecimal exp)

/-- `generateToken` of part_000 (lines 42-58): embeds id, email, username
and the defaulted privilege flag, sets expiry 7 days (604800 s) from now,
and signs with the server secret. `jwt.sign` computes `iat` in seconds. -/
def generateToken (user : GenUser) (now : Nat) : String :=
  let p : TokenPayload :=
    { id := user.id, email := user.email, username := user.username,
      is_host := user.is_host.getD false }
  let iat := now / 1000
  let core := jwtCore p iat (iat + 604800)
  core ++ encodeField (hmacHex JWT_SECRET core)

/-- Structural parse of the modelled token string back into payload,
timestamps and signature: seven length-prefixed fields with nothing left
over, with the numeric and boolean fields parsing strictly. -/
def jwtParse (token : String) : Option (TokenPayload × Nat × Nat × String) :=
  match parseField token.data with
  | none => none
  | some (idS, r1) =>
  match parseField r1 with
  | none => none
  | some (em, r2) =>
  match parseField r2 with
  | none => none
  | some (un, r3) =>
  match parseField r3 with
  | none => none
  | some (ho, r4) =>
  match parseField r4 with
  | none => none
  | some (iaS, r5) =>
  match parseField r5 with
  | none => none
  | some (exS, r6) =>
  match parseField r6 with
  | none => none
  | some (sg, r7) =>
  if r7 = [] then
    match parseIntFull idS, (if ho = "T" then some true
        else if ho = "F" then some false else none),
      parseNatFull iaS, parseNatFull exS with
    | some id, some host, some iat, some exp => some (⟨id, em, un, host⟩, iat, exp, sg)
    | _, _, _, _ => none
  else none

/-- Body of `jwt.verify` as called by `verifyToken`: throws (models
JsonWebTokenError) on a malformed token or a signature mismatch, throws
(models TokenExpiredError) when the clock has reached the expiry, and
returns the decoded payload otherwise. jsonwebtoken checks the signature
before the expiry and compares `clockTimestamp >= exp` in seconds. -/
def verifyTokenE (token : String) (now : Nat) : Except Unit TokenPayload :=
  match jwtParse token with
  | none => .error ()
  | some (p, iat, exp, sig) =>
    if sig ≠ hmacHex JWT_SECRET (jwtCore p iat exp) then .error ()
    else if now / 1000 ≥ exp then .error ()
    else .ok p

/-- `verifyToken` of part_000 (lines 63-70): the try/catch turns every
verification fault into `null`. -/
def verifyToken (token : String) (now : Nat) : Option TokenPayload :=
  match verifyTokenE token now with
  | .ok p => some p
  | .error _ => none

/-- `generateCsrfToken` of part_000 (lines 125-133):
base64 of "userId:timestamp:HMAC(userId:timestamp)". -/
def generateCsrfToken (userId : Int) (now : Nat) : String :=
  let data := intToDecimal userId ++ ":" ++ natToDecimal now
  let signature := hmacHex CSRF_SECRET data
  b64encode (data ++ ":" ++ signature)

/-- Body of `verifyCsrfToken` of part_000 (lines 139-168), before the
catch. The source destructures `decoded.split(":")` into its first three
fields without checking the field count; a missing field is `undefined`.
`parseInt(undefined)` is NaN, and `NaN !== userId` holds, as does
`!(Date.now() - NaN > 24h)`; `Buffer.from(undefined)` throws a TypeError
and `crypto.timingSafeEqual` throws a RangeError on buffers of different
byte lengths — both modelled as `.error ()`. -/
def verifyCsrfTokenE (token : String) (userId : Int) (now : Nat) : Except Unit Bool :=
  let decoded := b64decode token
  let fields := jsSplit decoded ':'
  let tokenUserId := fields.get? 0
  let timestamp := fields.get? 1
  let signature := fields.get? 2
  if parseIntJS (undefStr tokenUserId) ≠ some userId then .ok false
  else if (match parseIntJS (undefStr timestamp) with
           | some ts => decide ((now : Int) - ts > 86400000)
           | none => false) then .ok false
  else
    let expectedSignature := hmacHex CSRF_SECRET (undefStr tokenUserId ++ ":" ++ undefStr timestamp)
    match signature with
    | none => .error ()
    | some sig =>
      if sig.length ≠ expectedSignature.length then .error ()
      else .ok (decide (sig = expectedSignature))

/-- `verifyCsrfToken` of part_000: the surrounding try/catch maps any
thrown error to `false`. -/
def verifyCsrfToken (token : String) (userId : Int) (now : Nat) : Bool :=
  match verifyCsrfTokenE token userId now with
  | .ok b => b
  | .error _ => false

/-- An incoming request as the embedded functions consume it: the method,
the pathname, and the cookie and header lookups (`none` models an absent
cookie/header, `some ""` one present with an empty value). -/
structure JsRequest where
  method : String
  pathname : String
  cookies : String → Option String
  headers : String → Option String

/-- `getUserFromRequest` of part_000 (lines 88-105): the httpOnly cookie is
preferred; the Authorization header is a fallback. `if (cookieToken)` is a
JS truthiness test, so an absent cookie and a present-but-empty cookie both
fall through to the header. -/
def getUserFromRequest (req : JsRequest) (now : Nat) : Option TokenPayload :=
  let cookieToken := req.cookies "auth_token"
  if jsTruthy cookieToken then verifyToken (undefStr cookieToken) now
  else
    match req.headers "authorization" with
    | some authHeader =>
      if jsStartsWith authHeader "Bearer " then
        match (jsSplit authHeader ' ').get? 1 with
        | some t => verifyToken t now
        | none => none
      else none
    | none => none

/-! ## src/src/lib/csrf.ts — route-level mutation guard -/

/-- `validateCsrf` of csrf.ts (lines 14-44). Returns `none` when the
request may proceed and `some (message, status)` for the `errorResponse`
the guard produces. The CSRF token is taken from the `x-csrf-token` header
first, with the `csrf_token` cookie as fallback (JS `||`, so an empty
header also falls through to the cookie). -/
def validateCsrf (req : JsRequest) (now : Nat) : Option (String × Nat) :=
  let method := jsToUpperStr req.method
  if ¬ (method ∈ ["POST", "PUT", "DELETE", "PATCH"]) then none
  else
    match getUserFromRequest req now with
    | none => none
    | some user =>
      let csrfToken := jsOr (req.headers "x-csrf-token") (req.cookies "csrf_token")
      if ¬ jsTruthy csrfToken then some ("CSRF token missing", 403)
      else if ¬ verifyCsrfToken (undefStr csrfToken) user.id now then
        some ("Invalid CSRF token", 403)
      else none

/-- `CSRF_EXEMPT_PATHS` of csrf.ts. -/
def CSRF_EXEMPT_PATHS : List String :=
  ["/api/auth/login", "/api/auth/send-otp", "/api/auth/verify-otp",
   "/api/auth/forgot-password", "/api/auth/reset-password"]

/-- The per-path match used by both the csrf.ts exemption check and the
middleware path lists: exact match or a match of a sub-path. -/
def pathMatches (pathname p : String) : Bool :=
  pathname = p || jsStartsWith pathname (p ++ "/")

/-- `isCsrfExempt` of csrf.ts. -/
def isCsrfExempt (pathname : String) : Bool :=
  CSRF_EXEMPT_PATHS.any (pathMatches pathname)

/-! ## src/src/lib/rate-limit.ts — fixed-window rate limiter -/

/-- RateLimitConfig of rate-limit.ts; the optional group field is named
`prefix` in the source, which is a Lean keyword, hence `pfx` here. -/
structure RateLimitConfig where
  maxRequests : Nat
  windowSeconds : Nat
  pfx : Option String := none
deriving DecidableEq, Repr

/-- RateLimitEntry of rate-limit.ts. -/
structure RateLimitEntry where
  count : Nat
  resetTime : Nat
deriving DecidableEq, Repr

/-- RateLimitResult of rate-limit.ts. `remaining` is `Int` because the
source computes it by plain JS subtraction. -/
structure RateLimitResult where
  success : Bool
  remaining : Int
  resetIn : Nat
  limit : Nat
deriving DecidableEq, Repr

/-- The in-memory `rateLimitStore` Map, as an association list in insertion
order. -/
abbrev RateLimitStore := List (String × RateLimitEntry)

/-- `Map.get`. -/
def storeGet : RateLimitStore → String → Option RateLimitEntry
  | [], _ => none
  | (k, e) :: rest, key => if k = key then some e else storeGet rest key

/-- `Map.set`: replaces the value of an existing key in place, appends
otherwise. -/
def storeSet : RateLimitStore → String → RateLimitEntry → RateLimitStore
  | [], key, e => [(key, e)]
  | (k, e0) :: rest, key, e =>
    if k = key then (k, e) :: rest else (k, e0) :: storeSet rest key e

/-- Composite store key: the template literal of the destructured
prefix (default "") and the identifier. -/
def mkKey (config : RateLimitConfig) (identifier : String) : String :=
  config.pfx.getD "" ++ ":" ++ identifier

/-- `checkRateLimit` of rate-limit.ts (lines 45-91), with the store and the
clock explicit. Fresh-or-expired key: new entry of count 1, allow with
`remaining = max-1` and `resetIn = windowSeconds`. Live entry at the limit:
deny with `remaining = 0` and `resetIn = ceil((resetTime-now)/1000)`
(expressed in `Nat` arithmetic, which agrees with `Math.ceil` here since a
live entry has `now ≤ resetTime`), leaving the store untouched. Otherwise
increment and allow. -/
def checkRateLimit (identifier : String) (config : RateLimitConfig)
    (store : RateLimitStore) (now : Nat) : RateLimitResult × RateLimitStore :=
  let maxRequests := config.maxRequests
  let windowSeconds := config.windowSeconds
  let key := mkKey config identifier
  let windowMs := windowSeconds * 1000
  match storeGet store key with
  | none =>
    (⟨true, (maxRequests : Int) - 1, windowSeconds, maxRequests⟩,
     storeSet store key ⟨1, now + windowMs⟩)
  | some entry =>
    if now > entry.resetTime then
      (⟨true, (maxRequests : Int) - 1, windowSeconds, maxRequests⟩,
       storeSet store key ⟨1, now + windowMs⟩)
    else if entry.count ≥ maxRequests then
      (⟨false, 0, (entry.resetTime - now + 999) / 1000, maxRequests⟩, store)
    else
      (⟨true, (maxRequests : Int) - ((entry.count : Int) + 1),
        (entry.resetTime - now + 999) / 1000, maxRequests⟩,
       storeSet store key ⟨entry.count + 1, entry.resetTime⟩)

/-! ## src/unnamed/part_005 — middleware -/

/-- `publicPaths` of the middleware. -/
def publicPaths : List String :=
  ["/login", "/register", "/forgot-password", "/api/auth/login", "/api/auth/logout",
   "/api/auth/send-otp", "/api/auth/verify-otp", "/api/auth/forgot-password",
   "/api/auth/reset-password"]

/-- `csrfExemptPaths` of the middleware. -/
def csrfExemptPaths : List String :=
  ["/api/auth/login", "/api/auth/send-otp", "/api/auth/verify-otp",
   "/api/auth/forgot-password", "/api/auth/reset-password"]

/-- Outcome of the middleware: a redirect, the 401 JSON response, the 403
"CSRF token required" JSON response, or NextResponse.next(). -/
inductive MwDecision where
  | redirect (url : String)
  | unauthorized
  | csrfRequired
  | next
deriving DecidableEq, Repr

/-- `middleware` of part_005 (lines 256-312). Note that its CSRF block
looks at the `x-csrf-token` header only — the middleware "just ensures the
header is present" (its own comment) and never consults the `csrf_token`
cookie nor verifies the token value. -/
def middleware (req : JsRequest) : MwDecision :=
  let pathname := req.pathname
  let isPublicPath := publicPaths.any (pathMatches pathname)
  let cookieToken := req.cookies "auth_token"
  let headerToken := (req.headers "authorization").map (fun h => jsReplaceFirst h "Bearer " "")
  let token := jsOr cookieToken headerToken
  if isPublicPath ∧ jsTruthy token ∧ pathname ≠ "/api/auth/login" ∧
      pathname ≠ "/api/auth/logout" ∧ ¬ jsStartsWith pathname "/api/" then
    .redirect "/dashboard"
  else if ¬ isPublicPath ∧ ¬ jsTruthy token then
    (if jsStartsWith pathname "/api/" then .unauthorized else .redirect "/login")
  else if jsStartsWith pathname "/api/" ∧ jsTruthy token then
    let method := jsToUpperStr req.method
    let isMutation := method ∈ ["POST", "PUT", "DELETE", "PATCH"]
    let isCsrfExemptHere := csrfExemptPaths.any (pathMatches pathname)
    if isMutation ∧ ¬ isCsrfExemptHere ∧ ¬ jsTruthy (req.headers "x-csrf-token") then
      .csrfRequired
    else .next
  else .next

/-! ## Scenario definitions used by the theorems below -/

/-- Run `checkRateLimit` once per clock value in the list, threading the
store, and collect the per-call results (the shape of the spec's
rate-limiter scenario). -/
def rlSeq (identifier : String) (config : RateLimitConfig) (store : RateLimitStore) :
    List Nat → List RateLimitResult × RateLimitStore
  | [] => ([], store)
  | t :: ts =>
    let r := checkRateLimit identifier config store t
    let rest := rlSeq identifier config r.2 ts
    (r.1 :: rest.1, rest.2)

/-- Invariant of claim C7 at one key: every entry stored under the key has
count at most maxRequests + 1. -/
def storeCountBound (key : String) (maxR : Nat) (store : RateLimitStore) : Prop :=
  ∀ e, storeGet store key = some e → e.count ≤ maxR + 1

/-- A sample identity used by the concrete requests below. -/
def aliceUser : GenUser := { id := 7, email := "a@b.c", username := "alice", is_host := none }

/-- A POST to a protected API path from a logged-in user whose valid CSRF
token travels only in the csrf_token cookie (no x-csrf-token header). -/
def reqCookieOnlyCsrf : JsRequest :=
  { method := "POST", pathname := "/api/teams",
    cookies := fun n =>
      if n = "auth_token" then some (generateToken aliceUser 0)
      else if n = "csrf_token" then some (generateCsrfToken 7 0) else none,
    headers := fun _ => none }

/-- The same request with no CSRF token in either carrier. -/
def reqNoCsrf : JsRequest :=
  { method := "POST", pathname := "/api/teams",
    cookies := fun n => if n = "auth_token" then some (generateToken aliceUser 0) else none,
    headers := fun _ => none }

/-- The same request with a present-but-invalid CSRF token in the header. -/
def reqBadCsrf : JsRequest :=
  { method := "POST", pathname := "/api/teams",
    cookies := fun n => if n = "auth_token" then some (generateToken aliceUser 0) else none,
    headers := fun n => if n = "x-csrf-token" then some "garbage" else none }

/-- A request whose auth_token cookie is present with an empty value (as a
client sends after the logout route sets the cookie to "") while a valid
Bearer token sits in the Authorization header. -/
def reqEmptyAuthCookie : JsRequest :=
  { method := "GET", pathname := "/api/auth/me",
    cookies := fun n => if n = "auth_token" then some "" else none,
    headers := fun n =>
      if n = "authorization" then some ("Bearer " ++ generateToken aliceUser 0) else none }

/-! # Theorems

First, supporting lemmas about the JS primitives; the claim theorems and
their witnesses come at the end.
-/

/-- Facts about the ten digit characters, checked by evaluation. -/
theorem digitChar_spec : ∀ d, d < 10 →
    (digitChar d).isDigit = true ∧ (digitChar d).toNat = 48 + d ∧
    digitChar d ≠ ':' ∧ digitChar d ≠ '-' ∧ digitChar d ≠ '+' ∧
    (digitChar d).isWhitespace = false ∧ (digitChar d).toNat < 256 := by decide

/-- The fuel argument of natDigitsAux is irrelevant as long as it exceeds
the number being rendered. -/
theorem natDigitsAux_fuel : ∀ (n fuel1 fuel2 : Nat), n < fuel1 → n < fuel2 →
    natDigitsAux fuel1 n = natDigitsAux fuel2 n := by
  intro n
  induction n using Nat.strong_induction_on with
  | _ n ih =>
    intro fuel1 fuel2 h1 h2
    cases fuel1 with
    | zero => omega
    | succ f1 =>
      cases fuel2 with
      | zero => omega
      | succ f2 =>
        simp only [natDigitsAux]
        by_cases h : n < 10
        · rw [if_pos h, if_pos h]
        · rw [if_neg h, if_neg h, ih (n / 10) (by omega) f1 f2 (by omega) (by omega)]

/-- The defining recurrence of natDigits. -/
theorem natDigits_eq (n : Nat) :
    natDigits n = if n < 10 then [digitChar n] else natDigits (n / 10) ++ [digitChar (n % 10)] := by
  by_cases h : n < 10
  · rw [if_pos h]
    unfold natDigits natDigitsAux
    rw [if_pos h]
  · rw [if_neg h]
    unfold natDigits
    conv_lhs => rw [natDigitsAux]
    rw [if_neg h, natDigitsAux_fuel (n / 10) n (n / 10 + 1) (by omega) (by omega)]

/-- Every character of a rendered natural number is one of the ten digit
characters. -/
theorem natDigits_mem (n : Nat) : ∀ c ∈ natDigits n, ∃ d, d < 10 ∧ c = digitChar d := by
  induction n using Nat.strong_induction_on with
  | _ n ih =>
    rw [natDigits_eq]
    by_cases h : n < 10
    · rw [if_pos h]
      intro c hc
      simp only [List.mem_singleton] at hc
      exact ⟨n, h, hc⟩
    · rw [if_neg h]
      intro c hc
      rcases List.mem_append.1 hc with h1 | h2
      · exact ih (n / 10) (by omega) c h1
      · simp only [List.mem_singleton] at h2
        exact ⟨n % 10, by omega, h2⟩

/-- A rendered natural number is never the empty string. -/
theorem natDigits_ne_nil (n : Nat) : natDigits n ≠ [] := by
  rw [natDigits_eq]
  split
  · simp
  · simp

/-- A rendered natural number starts with a digit character. -/
theorem natDigits_cons (n : Nat) : ∃ c cs, natDigits n = c :: cs ∧ ∃ d, d < 10 ∧ c = digitChar d := by
  cases hd : natDigits n with
  | nil => exact absurd hd (natDigits_ne_nil n)
  | cons c cs =>
    refine ⟨c, cs, rfl, natDigits_mem n c ?_⟩
    rw [hd]
    exact List.mem_cons_self c cs

/-- parseDigitsAux stops at a non-digit (or at the end of input). -/
theorem parseDigitsAux_stop (acc : Nat) (rest : List Char)
    (h : ∀ c, rest.head? = some c → c.isDigit = false) :
    parseDigitsAux acc rest = (acc, rest) := by
  cases rest with
  | nil => rfl
  | cons c cs =>
    have := h c rfl
    unfold parseDigitsAux
    rw [if_neg (by simp [this])]

/-- Consuming the digits of a rendered number multiplies the accumulator by
the appropriate power of ten and adds the number. -/
theorem parseDigitsAux_natDigits (n : Nat) : ∀ (acc : Nat) (rest : List Char),
    parseDigitsAux acc (natDigits n ++ rest) =
      parseDigitsAux (acc * 10 ^ (natDigits n).length + n) rest := by
  induction n using Nat.strong_induction_on with
  | _ n ih =>
    intro acc rest
    rw [natDigits_eq]
    by_cases h : n < 10
    · rw [if_pos h]
      have hd := digitChar_spec n h
      simp only [List.cons_append, List.nil_append, parseDigitsAux, List.length_singleton]
      rw [if_pos hd.1]
      congr 1
      rw [hd.2.1, pow_one]
      omega
    · rw [if_neg h]
      rw [List.append_assoc, ih (n / 10) (by omega) acc _]
      have hd := digitChar_spec (n % 10) (by omega)
      simp only [List.cons_append, List.nil_append, parseDigitsAux]
      rw [if_pos hd.1]
      congr 1
      rw [hd.2.1]
      simp only [List.length_append, List.length_singleton]
      rw [pow_succ]
      have hstep : 10 * (acc * 10 ^ (natDigits (n / 10)).length + n / 10) + (48 + n % 10 - 48) =
          acc * (10 ^ (natDigits (n / 10)).length * 10) + (10 * (n / 10) + n % 10) := by ring_nf; omega
      rw [hstep]
      congr 1
      omega

/-- Parsing the maximal digit prefix of a rendered number followed by a
non-digit (or nothing) returns the number and the remainder. -/
theorem parseNatPrefixPair_natDigits (n : Nat) (rest : List Char)
    (hrest : ∀ c, rest.head? = some c → c.isDigit = false) :
    parseNatPrefixPair (natDigits n ++ rest) = some (n, rest) := by
  obtain ⟨c, cs, hcons, d, hd10, hcd⟩ := natDigits_cons n
  rw [hcons]
  unfold parseNatPrefixPair
  simp only [List.cons_append]
  rw [if_pos (by rw [hcd]; exact (digitChar_spec d hd10).1)]
  rw [← List.cons_append, ← hcons, parseDigitsAux_natDigits n 0 rest,
    parseDigitsAux_stop _ rest hrest]
  simp


/-- String append acts as list append on the underlying characters. -/
theorem strData_append (s t : String) : (s ++ t).data = s.data ++ t.data := rfl

/-- skipWs leaves a list starting with a non-whitespace character alone. -/
theorem skipWs_cons (c : Char) (cs : List Char) (h : c.isWhitespace = false) :
    skipWs (c :: cs) = c :: cs := by
  simp [skipWs, h]

/-- JS parseInt recovers a rendered natural number. -/
theorem parseIntJS_natToDecimal (n : Nat) : parseIntJS (natToDecimal n) = some (n : Int) := by
  obtain ⟨c, cs, hcons, d, hd10, hcd⟩ := natDigits_cons n
  have spec := digitChar_spec d hd10
  have hskip : skipWs (natToDecimal n).data = c :: cs := by
    rw [show (natToDecimal n).data = natDigits n from rfl, hcons]
    exact skipWs_cons c cs (by rw [hcd]; exact spec.2.2.2.2.2.1)
  simp only [parseIntJS, hskip]
  rw [if_neg (by rw [hcd]; exact spec.2.2.2.1), if_neg (by rw [hcd]; exact spec.2.2.2.2.1)]
  rw [← hcons, ← List.append_nil (natDigits n), parseNatPrefixPair_natDigits n [] (by simp)]
  simp

/-- JS parseInt recovers a rendered integer. -/
theorem parseIntJS_intToDecimal (i : Int) : parseIntJS (intToDecimal i) = some i := by
  by_cases hi : i < 0
  · have h1 : intToDecimal i = "-" ++ natToDecimal i.natAbs := by
      unfold intToDecimal
      rw [if_pos hi]
    have hdata : ("-" ++ natToDecimal i.natAbs).data = '-' :: natDigits i.natAbs := rfl
    have hskip : skipWs ('-' :: natDigits i.natAbs) = '-' :: natDigits i.natAbs :=
      skipWs_cons _ _ (by decide)
    rw [h1]
    simp only [parseIntJS, hdata, hskip, if_true]
    rw [← List.append_nil (natDigits i.natAbs), parseNatPrefixPair_natDigits _ [] (by simp)]
    show some (-(i.natAbs : Int)) = some i
    congr 1
    omega
  · have h1 : intToDecimal i = natToDecimal i.natAbs := by
      unfold intToDecimal
      rw [if_neg hi]
    rw [h1, parseIntJS_natToDecimal]
    congr 1
    omega

/-- Strict full-string parse recovers a rendered natural number. -/
theorem parseNatFull_natToDecimal (n : Nat) : parseNatFull (natToDecimal n) = some n := by
  simp only [parseNatFull]
  rw [show (natToDecimal n).data = natDigits n from rfl, ← List.append_nil (natDigits n),
    parseNatPrefixPair_natDigits n [] (by simp)]

/-- Strict full-string parse recovers a rendered integer. -/
theorem parseIntFull_intToDecimal (i : Int) : parseIntFull (intToDecimal i) = some i := by
  by_cases hi : i < 0
  · have h1 : intToDecimal i = "-" ++ natToDecimal i.natAbs := by
      unfold intToDecimal
      rw [if_pos hi]
    have hdata : ("-" ++ natToDecimal i.natAbs).data = '-' :: natDigits i.natAbs := rfl
    rw [h1]
    simp only [parseIntFull, hdata, List.headD_cons, List.tail_cons, if_true]
    rw [← List.append_nil (natDigits i.natAbs),
      parseNatPrefixPair_natDigits _ [] (by simp)]
    show some (-(i.natAbs : Int)) = some i
    congr 1
    omega
  · have h1 : intToDecimal i = natToDecimal i.natAbs := by
      unfold intToDecimal
      rw [if_neg hi]
    obtain ⟨c, cs, hcons, d, hd10, hcd⟩ := natDigits_cons i.natAbs
    have spec := digitChar_spec d hd10
    have hhead : (natToDecimal i.natAbs).data.headD ' ' = c := by
      rw [show (natToDecimal i.natAbs).data = natDigits i.natAbs from rfl, hcons]
      rfl
    rw [h1]
    simp only [parseIntFull, hhead]
    rw [if_neg (by rw [hcd]; exact spec.2.2.2.1)]
    rw [parseNatFull_natToDecimal]
    show some ((i.natAbs : Nat) : Int) = some i
    congr 1
    omega

/-- splitCh always yields at least one field. -/
theorem splitCh_ne_nil (sep : Char) (l : List Char) : splitCh sep l ≠ [] := by
  cases l with
  | nil => simp [splitCh]
  | cons c cs =>
    simp only [splitCh]
    split <;> simp

/-- A list without the separator is a single field. -/
theorem splitCh_no_sep (sep : Char) (l : List Char) (h : sep ∉ l) : splitCh sep l = [l] := by
  induction l with
  | nil => rfl
  | cons c cs ih =>
    have hcs : sep ∉ cs := fun hm => h (List.mem_cons_of_mem c hm)
    have hc : c ≠ sep := fun he => h (he ▸ List.mem_cons_self c cs)
    simp only [splitCh]
    rw [ih hcs, if_neg hc]
    simp

/-- Splitting at the first separator occurrence peels off the leading
field. -/
theorem splitCh_append (sep : Char) (a rest : List Char) (h : sep ∉ a) :
    splitCh sep (a ++ sep :: rest) = a :: splitCh sep rest := by
  induction a with
  | nil =>
    simp only [List.nil_append, splitCh, if_true]
  | cons c a ih =>
    have ha : sep ∉ a := fun hm => h (List.mem_cons_of_mem c hm)
    have hc : c ≠ sep := fun he => h (he ▸ List.mem_cons_self c a)
    simp only [List.cons_append, splitCh, List.append_eq]
    rw [ih ha, if_neg hc]
    simp

/-- Alphabet lookup inverts alphabet rendering on six-bit values. -/
theorem charSextet_sextetChar : ∀ s, s < 64 → charSextet (sextetChar s) = some s := by decide

/-- Unpacking inverts packing on byte lists. -/
theorem fromSextets_toSextets (bs : List Nat) (h : ∀ b ∈ bs, b < 256) :
    fromSextets (toSextets bs) = bs := by
  induction bs using toSextets.induct with
  | case1 b1 b2 b3 rest ih =>
    simp only [toSextets, fromSextets, List.cons.injEq]
    have h1 : b1 < 256 := h b1 (by simp)
    have h2 : b2 < 256 := h b2 (by simp)
    have h3 : b3 < 256 := h b3 (by simp)
    refine ⟨by omega, by omega, by omega, ih fun b hb => h b (by simp [hb])⟩
  | case2 b1 b2 =>
    have h1 : b1 < 256 := h b1 (by simp)
    have h2 : b2 < 256 := h b2 (by simp)
    simp only [toSextets, fromSextets, List.cons.injEq, and_true]
    constructor <;> omega
  | case3 b1 =>
    have h1 : b1 < 256 := h b1 (by simp)
    simp only [toSextets, fromSextets, List.cons.injEq, and_true]
    omega
  | case4 => rfl

/-- Packed groups of bytes are six-bit values. -/
theorem toSextets_lt (bs : List Nat) (h : ∀ b ∈ bs, b < 256) : ∀ s ∈ toSextets bs, s < 64 := by
  induction bs using toSextets.induct with
  | case1 b1 b2 b3 rest ih =>
    have h1 : b1 < 256 := h b1 (by simp)
    have h2 : b2 < 256 := h b2 (by simp)
    have h3 : b3 < 256 := h b3 (by simp)
    intro s hs
    simp only [toSextets, List.mem_cons] at hs
    rcases hs with rfl | rfl | rfl | rfl | hs
    · omega
    · omega
    · omega
    · omega
    · exact ih (fun b hb => h b (by simp [hb])) s hs
  | case2 b1 b2 =>
    have h1 : b1 < 256 := h b1 (by simp)
    have h2 : b2 < 256 := h b2 (by simp)
    intro s hs
    simp only [toSextets, List.mem_cons, List.not_mem_nil, or_false] at hs
    rcases hs with rfl | rfl | rfl <;> omega
  | case3 b1 =>
    have h1 : b1 < 256 := h b1 (by simp)
    intro s hs
    simp only [toSextets, List.mem_cons, List.not_mem_nil, or_false] at hs
    rcases hs with rfl | rfl <;> omega
  | case4 =>
    intro s hs
    simp [toSextets] at hs

/-- Decoding the rendered alphabet characters recovers the six-bit values. -/
theorem filterMap_sextetChar (l : List Nat) (h : ∀ s ∈ l, s < 64) :
    (l.map sextetChar).filterMap charSextet = l := by
  induction l with
  | nil => rfl
  | cons s rest ih =>
    simp only [List.map_cons, List.filterMap_cons, charSextet_sextetChar s (h s (by simp))]
    rw [ih (fun x hx => h x (by simp [hx]))]

/-- Padding characters are skipped by the decoder. -/
theorem b64Pad_filterMap (m : Nat) : (b64Pad m).filterMap charSextet = [] := by
  unfold b64Pad
  split
  · decide
  · split
    · decide
    · rfl

/-- Decoding inverts encoding on one-byte characters (all strings this
codebase base64-encodes are ASCII). -/
theorem b64_roundtrip (s : String) (h : ∀ c ∈ s.data, c.toNat < 256) :
    b64decode (b64encode s) = s := by
  have hbytes : ∀ b ∈ s.data.map Char.toNat, b < 256 := by
    intro b hb
    obtain ⟨c, hc, rfl⟩ := List.mem_map.1 hb
    exact h c hc
  show String.mk ((fromSextets
      (((toSextets (s.data.map Char.toNat)).map sextetChar ++
        b64Pad (s.data.length % 3)).filterMap charSextet)).map Char.ofNat) = s
  rw [List.filterMap_append, filterMap_sextetChar _ (toSextets_lt _ hbytes),
    b64Pad_filterMap, List.append_nil, fromSextets_toSextets _ hbytes, List.map_map]
  have hid : Char.ofNat ∘ Char.toNat = id := funext Char.ofNat_toNat
  rw [hid, List.map_id]

/-- Rendered naturals are one-byte characters. -/
theorem natDigits_ascii (n : Nat) : ∀ c ∈ natDigits n, c.toNat < 256 := by
  intro c hc
  obtain ⟨d, hd, rfl⟩ := natDigits_mem n c hc
  exact (digitChar_spec d hd).2.2.2.2.2.2

/-- Rendered naturals contain no colon. -/
theorem natDigits_no_colon (n : Nat) : ':' ∉ natDigits n := by
  intro hm
  obtain ⟨d, hd, hcd⟩ := natDigits_mem n ':' hm
  exact (digitChar_spec d hd).2.2.1 hcd.symm

/-- Rendered integers are one-byte characters. -/
theorem intToDecimal_ascii (i : Int) : ∀ c ∈ (intToDecimal i).data, c.toNat < 256 := by
  intro c hc
  unfold intToDecimal at hc
  split at hc
  · rcases List.mem_cons.1 hc with rfl | hc2
    · decide
    · exact natDigits_ascii _ c hc2
  · exact natDigits_ascii _ c hc

/-- Rendered integers contain no colon. -/
theorem intToDecimal_no_colon (i : Int) : ':' ∉ (intToDecimal i).data := by
  intro hm
  unfold intToDecimal at hm
  split at hm
  · rcases List.mem_cons.1 hm with heq | hm2
    · exact absurd heq (by decide)
    · exact natDigits_no_colon _ hm2
  · exact natDigits_no_colon _ hm

/-- The decoded, colon-split form of a generated CSRF token is exactly the
rendered user id, the rendered timestamp, and the digest. -/
theorem csrf_fields (uid : Int) (t : Nat) :
    jsSplit (b64decode (generateCsrfToken uid t)) ':' =
      [intToDecimal uid, natToDecimal t,
       hmacHex CSRF_SECRET (intToDecimal uid ++ ":" ++ natToDecimal t)] := by
  have hcolon : ((":" : String)).data = [':'] := rfl
  have hsigdata : (hmacHex CSRF_SECRET (intToDecimal uid ++ ":" ++ natToDecimal t)).data =
      natDigits (strHash (CSRF_SECRET ++ "|" ++ (intToDecimal uid ++ ":" ++ natToDecimal t))) := rfl
  have hdataeq : ((intToDecimal uid ++ ":" ++ natToDecimal t) ++ ":" ++
        hmacHex CSRF_SECRET (intToDecimal uid ++ ":" ++ natToDecimal t)).data =
      (intToDecimal uid).data ++ ':' :: ((natToDecimal t).data ++ ':' ::
        (hmacHex CSRF_SECRET (intToDecimal uid ++ ":" ++ natToDecimal t)).data) := by
    simp [strData_append, hcolon]
  have hascii : ∀ c ∈ ((intToDecimal uid ++ ":" ++ natToDecimal t) ++ ":" ++
      hmacHex CSRF_SECRET (intToDecimal uid ++ ":" ++ natToDecimal t)).data, c.toNat < 256 := by
    rw [hdataeq]
    intro c hc
    simp only [List.mem_append, List.mem_cons] at hc
    rcases hc with h1 | rfl | h2 | rfl | h3
    · exact intToDecimal_ascii uid c h1
    · decide
    · exact natDigits_ascii _ c h2
    · decide
    · rw [hsigdata] at h3
      exact natDigits_ascii _ c h3
  simp only [generateCsrfToken]
  rw [b64_roundtrip _ hascii]
  unfold jsSplit
  rw [hdataeq,
    splitCh_append ':' (intToDecimal uid).data _ (intToDecimal_no_colon uid),
    splitCh_append ':' (natToDecimal t).data _ (natDigits_no_colon t),
    splitCh_no_sep ':' _ (by rw [hsigdata]; exact natDigits_no_colon _)]
  rfl

/-- The base64 decode of a generated CSRF token is its colon-joined data. -/
theorem csrf_decode (uid : Int) (t : Nat) :
    b64decode (generateCsrfToken uid t) =
      (intToDecimal uid ++ ":" ++ natToDecimal t) ++ ":" ++
        hmacHex CSRF_SECRET (intToDecimal uid ++ ":" ++ natToDecimal t) := by
  have hsigdata : (hmacHex CSRF_SECRET (intToDecimal uid ++ ":" ++ natToDecimal t)).data =
      natDigits (strHash (CSRF_SECRET ++ "|" ++ (intToDecimal uid ++ ":" ++ natToDecimal t))) := rfl
  have hascii : ∀ c ∈ ((intToDecimal uid ++ ":" ++ natToDecimal t) ++ ":" ++
      hmacHex CSRF_SECRET (intToDecimal uid ++ ":" ++ natToDecimal t)).data, c.toNat < 256 := by
    intro c hc
    simp only [strData_append, List.mem_append, List.mem_singleton] at hc
    rcases hc with (((h1 | rfl) | h2) | rfl) | h3
    · exact intToDecimal_ascii uid c h1
    · decide
    · exact natDigits_ascii _ c h2
    · decide
    · rw [hsigdata] at h3
      exact natDigits_ascii _ c h3
  simp only [generateCsrfToken]
  exact b64_roundtrip _ hascii

/-- Evaluation of the CSRF verifier body on any token whose first three
decoded fields are a rendered user id, a rendered timestamp and the
matching digest: the outcome depends only on the expected user id and the
token age (any fields beyond the third are ignored by the destructuring). -/
theorem verifyCsrfTokenE_of_fields (token : String) (expected uid : Int) (tGen now : Nat)
    (rest : List String)
    (hf : jsSplit (b64decode token) ':' =
      intToDecimal uid :: natToDecimal tGen ::
        hmacHex CSRF_SECRET (intToDecimal uid ++ ":" ++ natToDecimal tGen) :: rest) :
    verifyCsrfTokenE token expected now =
      .ok (decide (expected = uid) && !decide ((now : Int) - (tGen : Int) > 86400000)) := by
  simp only [verifyCsrfTokenE, hf]
  simp only [List.get?, undefStr, parseIntJS_intToDecimal, parseIntJS_natToDecimal]
  by_cases he : expected = uid
  · rw [if_neg (by simp [he])]
    by_cases hage : (now : Int) - (tGen : Int) > 86400000
    · rw [if_pos (by simp [hage])]
      simp [he, hage]
    · rw [if_neg (by simp [hage])]
      rw [if_neg (by simp)]
      simp [he, hage]
  · rw [if_pos (by simp only [ne_eq, Option.some.injEq]; exact fun heq => he heq.symm)]
    simp [he]

/-- Evaluation of the CSRF verifier on a generated token. -/
theorem verifyCsrf_gen_eval (uid expected : Int) (tGen now : Nat) :
    verifyCsrfToken (generateCsrfToken uid tGen) expected now =
      (decide (expected = uid) && !decide ((now : Int) - (tGen : Int) > 86400000)) := by
  unfold verifyCsrfToken
  rw [verifyCsrfTokenE_of_fields (generateCsrfToken uid tGen) expected uid tGen now []
    (by rw [csrf_fields])]

/-- Claim C1: a freshly issued CSRF token verifies for the user id it was
issued to when checked on the same clock, and fails verification for every
other user id. -/
theorem csrf_token_user_binding (userId other : Int) (now : Nat) :
    verifyCsrfToken (generateCsrfToken userId now) userId now = true ∧
    (other ≠ userId → verifyCsrfToken (generateCsrfToken userId now) other now = false) := by
  constructor
  · rw [verifyCsrf_gen_eval]
    simp
  · intro hne
    rw [verifyCsrf_gen_eval]
    simp [hne]

/-- Witness for C1 at userId 1, other 2, clock 0. -/
theorem csrf_token_user_binding_witness :
    verifyCsrfToken (generateCsrfToken 1 0) 1 0 = true ∧
    verifyCsrfToken (generateCsrfToken 1 0) 2 0 = false :=
  ⟨(csrf_token_user_binding 1 2 0).1, (csrf_token_user_binding 1 2 0).2 (by decide)⟩

/-- Claim C4: a CSRF token whose embedded timestamp lies more than 24 hours
(86400000 ms) before the verification clock is rejected, even though its
signature is the correct digest and its user id matches. -/
theorem csrf_token_expires (userId : Int) (tGen now : Nat) (h : tGen + 86400000 < now) :
    verifyCsrfToken (generateCsrfToken userId tGen) userId now = false := by
  rw [verifyCsrf_gen_eval]
  have hage : ((now : Int) - (tGen : Int) > 86400000) := by omega
  simp [hage]

/-- Witness for C4: a token stamped at 0 checked at 24h + 1ms. -/
theorem csrf_token_expires_witness :
    verifyCsrfToken (generateCsrfToken 1 0) 1 86400001 = false :=
  csrf_token_expires 1 0 86400001 (by decide)

/-- Fewer than three decoded fields always fail CSRF verification: the
missing signature field is `undefined`, `Buffer.from(undefined)` throws,
and the catch returns false (the user-id and age checks can only return
false earlier). -/
theorem verifyCsrf_fields_lt3 (token : String) (userId : Int) (now : Nat)
    (h : (jsSplit (b64decode token) ':').length < 3) :
    verifyCsrfToken token userId now = false := by
  have h2 : (jsSplit (b64decode token) ':').get? 2 = none := by
    rw [List.get?_eq_none]
    omega
  simp only [verifyCsrfToken, verifyCsrfTokenE, h2]
  by_cases hA : parseIntJS (undefStr ((jsSplit (b64decode token) ':').get? 0)) ≠ some userId
  · rw [if_pos hA]
  · rw [if_neg hA]
    by_cases hB : (match parseIntJS (undefStr ((jsSplit (b64decode token) ':').get? 1)) with
        | some ts => decide ((now : Int) - ts > 86400000)
        | none => false) = true
    · rw [if_pos hB]
    · rw [if_neg hB]

/-- Splitting the decoded form of a generated token extended by an extra
colon-delimited suffix: the three real fields come first, the suffix only
adds fields after them. -/
theorem csrf_fields_suffix (uid : Int) (t : Nat) (suffix : String)
    (hsuf : ∀ c ∈ suffix.data, c.toNat < 256) :
    jsSplit (b64decode (b64encode (b64decode (generateCsrfToken uid t) ++ ":" ++ suffix))) ':' =
      intToDecimal uid :: natToDecimal t ::
        hmacHex CSRF_SECRET (intToDecimal uid ++ ":" ++ natToDecimal t) ::
        (splitCh ':' suffix.data).map String.mk := by
  rw [csrf_decode]
  have hsigdata : (hmacHex CSRF_SECRET (intToDecimal uid ++ ":" ++ natToDecimal t)).data =
      natDigits (strHash (CSRF_SECRET ++ "|" ++ (intToDecimal uid ++ ":" ++ natToDecimal t))) := rfl
  have hascii : ∀ c ∈ ((((intToDecimal uid ++ ":" ++ natToDecimal t) ++ ":" ++
      hmacHex CSRF_SECRET (intToDecimal uid ++ ":" ++ natToDecimal t)) ++ ":" ++ suffix)).data,
      c.toNat < 256 := by
    intro c hc
    simp only [strData_append, List.mem_append, List.mem_singleton] at hc
    rcases hc with (((((h1 | rfl) | h2) | rfl) | h3) | rfl) | h4
    · exact intToDecimal_ascii uid c h1
    · decide
    · exact natDigits_ascii _ c h2
    · decide
    · rw [hsigdata] at h3
      exact natDigits_ascii _ c h3
    · decide
    · exact hsuf c h4
  rw [b64_roundtrip _ hascii]
  have hcolon : ((":" : String)).data = [':'] := rfl
  have hdataeq : ((((intToDecimal uid ++ ":" ++ natToDecimal t) ++ ":" ++
      hmacHex CSRF_SECRET (intToDecimal uid ++ ":" ++ natToDecimal t)) ++ ":" ++ suffix)).data =
      (intToDecimal uid).data ++ ':' :: ((natToDecimal t).data ++ ':' ::
        ((hmacHex CSRF_SECRET (intToDecimal uid ++ ":" ++ natToDecimal t)).data ++ ':' ::
          suffix.data)) := by
    simp [strData_append, hcolon]
  unfold jsSplit
  rw [hdataeq,
    splitCh_append ':' (intToDecimal uid).data _ (intToDecimal_no_colon uid),
    splitCh_append ':' (natToDecimal t).data _ (natDigits_no_colon t),
    splitCh_append ':' _ _ (by rw [hsigdata]; exact natDigits_no_colon _)]
  rfl

/-- Claim C2 (amended): a token whose base64-decoded form has fewer than
three colon-delimited fields is rejected for every expected user id, but a
decoded form with more than three fields is not rejected as such — the
destructuring reads only the first three fields, so a valid token whose
decoded form is extended by an extra colon-delimited suffix still
verifies. -/
theorem csrf_field_count (token : String) (userId uid : Int) (now t : Nat) (suffix : String) :
    ((jsSplit (b64decode token) ':').length < 3 → verifyCsrfToken token userId now = false) ∧
    ((∀ c ∈ suffix.data, c.toNat < 256) →
      verifyCsrfToken (b64encode (b64decode (generateCsrfToken uid t) ++ ":" ++ suffix)) uid t =
        true) := by
  constructor
  · exact fun h => verifyCsrf_fields_lt3 token userId now h
  · intro hsuf
    unfold verifyCsrfToken
    rw [verifyCsrfTokenE_of_fields _ uid uid t t _ (csrf_fields_suffix uid t suffix hsuf)]
    simp

/-- Witness for the amended C2: the empty token has one decoded field and
is rejected; a generated token with an extra ":xyz" suffix still verifies. -/
theorem csrf_field_count_witness :
    verifyCsrfToken "" 5 0 = false ∧
    verifyCsrfToken (b64encode (b64decode (generateCsrfToken 3 9) ++ ":" ++ "xyz")) 3 9 = true :=
  ⟨(csrf_field_count "" 5 3 0 9 "xyz").1 (by decide),
   (csrf_field_count "" 5 3 0 9 "xyz").2 (by decide)⟩

/-- Counterexample to C2 as stated: a concrete token whose decoded form has
four colon-delimited fields — a valid token plus an extra ":junk" suffix —
is accepted by verifyCsrfToken, not rejected. -/
theorem csrf_extra_field_cex :
    (jsSplit (b64decode (b64encode ("7:0:" ++ hmacHex CSRF_SECRET "7:0" ++ ":junk"))) ':').length
        = 4 ∧
    verifyCsrfToken (b64encode ("7:0:" ++ hmacHex CSRF_SECRET "7:0" ++ ":junk")) 7 0 = true := by
  constructor
  · decide
  · decide

/-- Parsing one length-prefixed field recovers the field and the rest. -/
theorem parseField_encodeField (s : String) (rest : List Char) :
    parseField ((encodeField s).data ++ rest) = some (s, rest) := by
  have hdata : (encodeField s).data = natDigits s.data.length ++ ':' :: s.data := by
    rw [show (encodeField s).data = (natDigits s.data.length ++ [':']) ++ s.data from rfl,
      List.append_assoc, List.singleton_append]
  rw [hdata, List.append_assoc, List.cons_append]
  simp only [parseField,
    parseNatPrefixPair_natDigits s.data.length (':' :: (s.data ++ rest))
      (by intro c hc; simp only [List.head?_cons, Option.some.injEq] at hc; subst hc; decide)]
  rw [List.headD_cons, if_pos rfl, List.tail_cons, if_pos (by simp)]
  simp

set_option maxHeartbeats 1000000 in
/-- Parsing the modelled token string recovers payload, timestamps and
signature. -/
theorem jwtParse_roundtrip (p : TokenPayload) (iat exp : Nat) (sig : String) :
    jwtParse (jwtCore p iat exp ++ encodeField sig) = some (p, iat, exp, sig) := by
  have h1 : (jwtCore p iat exp ++ encodeField sig).data =
      (encodeField (intToDecimal p.id)).data ++ ((encodeField p.email).data ++
        ((encodeField p.username).data ++ ((encodeField (if p.is_host then "T" else "F")).data ++
          ((encodeField (natToDecimal iat)).data ++ ((encodeField (natToDecimal exp)).data ++
            ((encodeField sig).data ++ [])))))) := by
    simp [jwtCore, strData_append, List.append_assoc]
  cases p with
  | mk pid pem pun phost =>
    cases phost <;>
    · simp only [jwtParse, h1, parseField_encodeField]
      simp [parseIntFull_intToDecimal, parseNatFull_natToDecimal]

/-- Verification of a generated session token: the signature always
matches, so the outcome is decided by the expiry alone. -/
theorem verifyToken_generate (u : GenUser) (now later : Nat) :
    verifyToken (generateToken u now) later =
      if now / 1000 + 604800 ≤ later / 1000 then none
      else some ⟨u.id, u.email, u.username, u.is_host.getD false⟩ := by
  simp only [generateToken, verifyToken, verifyTokenE]
  rw [jwtParse_roundtrip]
  by_cases h : now / 1000 + 604800 ≤ later / 1000
  · rw [if_pos h]
    simp [h]
  · rw [if_neg h]
    simp [h]

/-- Claim C5: verifying a freshly issued session token before the 7-day
expiry yields a payload whose id, email and username match the issued
identity; verifying it once the expiry second is reached yields null.
jwt.sign works in seconds: iat = now/1000 and exp = iat + 604800. -/
theorem session_token_roundtrip (u : GenUser) (now later : Nat) :
    (later / 1000 < now / 1000 + 604800 →
      ∃ p, verifyToken (generateToken u now) later = some p ∧
        p.id = u.id ∧ p.email = u.email ∧ p.username = u.username) ∧
    (now / 1000 + 604800 ≤ later / 1000 →
      verifyToken (generateToken u now) later = none) := by
  constructor
  · intro h
    rw [verifyToken_generate, if_neg (by omega)]
    exact ⟨_, rfl, rfl, rfl, rfl⟩
  · intro h
    rw [verifyToken_generate, if_pos h]

/-- Witness for C5: aliceUser issued at 1000 ms, verified at 5000 ms (valid)
and at 604801000 ms (expired). -/
theorem session_token_roundtrip_witness :
    (∃ p, verifyToken (generateToken aliceUser 1000) 5000 = some p ∧
      p.id = aliceUser.id ∧ p.email = aliceUser.email ∧ p.username = aliceUser.username) ∧
    verifyToken (generateToken aliceUser 1000) 604801000 = none :=
  ⟨(session_token_roundtrip aliceUser 1000 5000).1 (by decide),
   (session_token_roundtrip aliceUser 1000 604801000).2 (by decide)⟩

/-- Claim C9 (amended): when the auth_token cookie is present with a
nonempty value that fails verification, getUserFromRequest returns null
without consulting the Authorization header. (A present-but-empty cookie
value is falsy in JS and does fall through to the header — see the
counterexample.) -/
theorem cookie_shadows_header (req : JsRequest) (now : Nat) (v : String)
    (hc : req.cookies "auth_token" = some v) (hne : v ≠ "")
    (hv : verifyToken v now = none) :
    getUserFromRequest req now = none := by
  simp only [getUserFromRequest, hc]
  rw [if_pos (by simp [jsTruthy, hne])]
  simpa [undefStr] using hv

/-- Witness for the amended C9: a request whose auth cookie holds the
unverifiable value "x" resolves no user even though a valid Bearer token is
present in the header. -/
theorem cookie_shadows_header_witness :
    getUserFromRequest
      { method := "GET", pathname := "/api/auth/me",
        cookies := fun n => if n = "auth_token" then some "x" else none,
        headers := fun n =>
          if n = "authorization" then some ("Bearer " ++ generateToken aliceUser 0) else none }
      0 = none :=
  cookie_shadows_header _ 0 "x" (by decide) (by decide) (by decide)

/-- Counterexample to C9 as stated: the auth_token cookie of
reqEmptyAuthCookie is present (with the empty value the logout route
installs) and its value fails verification, yet getUserFromRequest falls
through to the Authorization header and resolves the Bearer identity
instead of returning null. -/
theorem empty_cookie_header_fallback_cex :
    reqEmptyAuthCookie.cookies "auth_token" = some "" ∧
    verifyToken "" 0 = none ∧
    getUserFromRequest reqEmptyAuthCookie 0 =
      some { id := 7, email := "a@b.c", username := "alice", is_host := false } := by
  refine ⟨by decide, by decide, ?_⟩
  decide

/-- Claim C8: verification is total and non-throwing. For every input
string verifyCsrfToken returns a plain boolean: a decoded form with a
missing field fails as false, a non-parsing user-id field fails as false,
and every exception of the verifier body (the modelled Buffer/TypeError
and timingSafeEqual/RangeError throws) is caught and surfaces as false;
likewise every exception of the jwt.verify body (malformed token, bad
signature, expiry) surfaces from verifyToken as null, never as a fault. -/
theorem verification_never_throws (token : String) (userId : Int) (now : Nat) (tk : String) :
    ((jsSplit (b64decode token) ':').length < 3 → verifyCsrfToken token userId now = false) ∧
    (parseIntJS (undefStr ((jsSplit (b64decode token) ':').get? 0)) = none →
      verifyCsrfToken token userId now = false) ∧
    (∀ e, verifyCsrfTokenE token userId now = .error e →
      verifyCsrfToken token userId now = false) ∧
    (∀ e, verifyTokenE tk now = .error e → verifyToken tk now = none) := by
  refine ⟨fun h => verifyCsrf_fields_lt3 token userId now h, ?_, ?_, ?_⟩
  · intro h
    simp only [verifyCsrfToken, verifyCsrfTokenE, h]
    rw [if_pos (by simp)]
  · intro e he
    simp only [verifyCsrfToken, he]
  · intro e he
    simp only [verifyToken, he]

/-- Witness for C8: the empty token (one decoded field, unparseable user
id), a token whose signature field has the wrong byte length (the
timingSafeEqual throw path), and an unparseable session token. -/
theorem verification_never_throws_witness :
    verifyCsrfToken "" 5 0 = false ∧
    verifyCsrfToken (b64encode "1:0:xxxxxxxxxxxx") 1 0 = false ∧
    verifyToken "zz" 0 = none :=
  ⟨(verification_never_throws "" 5 0 "zz").1 (by decide),
   (verification_never_throws (b64encode "1:0:xxxxxxxxxxxx") 1 0 "zz").2.2.1 () rfl,
   (verification_never_throws "" 5 0 "zz").2.2.2 () rfl⟩

/-- Fresh-key branch of checkRateLimit. -/
theorem checkRateLimit_fresh (identifier : String) (config : RateLimitConfig)
    (store : RateLimitStore) (now : Nat)
    (h : storeGet store (mkKey config identifier) = none) :
    checkRateLimit identifier config store now =
      (⟨true, (config.maxRequests : Int) - 1, config.windowSeconds, config.maxRequests⟩,
       storeSet store (mkKey config identifier) ⟨1, now + config.windowSeconds * 1000⟩) := by
  simp only [checkRateLimit, h]

/-- Expired-entry branch of checkRateLimit. -/
theorem checkRateLimit_expired (identifier : String) (config : RateLimitConfig)
    (store : RateLimitStore) (now : Nat) (entry : RateLimitEntry)
    (h : storeGet store (mkKey config identifier) = some entry)
    (hexp : now > entry.resetTime) :
    checkRateLimit identifier config store now =
      (⟨true, (config.maxRequests : Int) - 1, config.windowSeconds, config.maxRequests⟩,
       storeSet store (mkKey config identifier) ⟨1, now + config.windowSeconds * 1000⟩) := by
  simp only [checkRateLimit, h]
  rw [if_pos hexp]

/-- At-the-limit branch of checkRateLimit: deny and leave the store as is. -/
theorem checkRateLimit_deny (identifier : String) (config : RateLimitConfig)
    (store : RateLimitStore) (now : Nat) (entry : RateLimitEntry)
    (h : storeGet store (mkKey config identifier) = some entry)
    (hlive : ¬ now > entry.resetTime) (hcnt : entry.count ≥ config.maxRequests) :
    checkRateLimit identifier config store now =
      (⟨false, 0, (entry.resetTime - now + 999) / 1000, config.maxRequests⟩, store) := by
  simp only [checkRateLimit, h]
  rw [if_neg hlive, if_pos hcnt]

/-- Under-the-limit branch of checkRateLimit: increment and allow. -/
theorem checkRateLimit_incr (identifier : String) (config : RateLimitConfig)
    (store : RateLimitStore) (now : Nat) (entry : RateLimitEntry)
    (h : storeGet store (mkKey config identifier) = some entry)
    (hlive : ¬ now > entry.resetTime) (hcnt : entry.count < config.maxRequests) :
    checkRateLimit identifier config store now =
      (⟨true, (config.maxRequests : Int) - ((entry.count : Int) + 1),
        (entry.resetTime - now + 999) / 1000, config.maxRequests⟩,
       storeSet store (mkKey config identifier) ⟨entry.count + 1, entry.resetTime⟩) := by
  simp only [checkRateLimit, h]
  rw [if_neg hlive, if_neg (by omega)]

/-- Reading back the key just written. -/
theorem storeGet_storeSet_self (store : RateLimitStore) (key : String) (e : RateLimitEntry) :
    storeGet (storeSet store key e) key = some e := by
  induction store with
  | nil => simp [storeSet, storeGet]
  | cons kv rest ih =>
    obtain ⟨k, e0⟩ := kv
    by_cases hk : k = key
    · simp [storeSet, storeGet, hk]
    · simp [storeSet, storeGet, hk, ih]

/-- Writing one key leaves every other key unchanged. -/
theorem storeGet_storeSet_ne (store : RateLimitStore) (key key2 : String) (e : RateLimitEntry)
    (h : key2 ≠ key) :
    storeGet (storeSet store key e) key2 = storeGet store key2 := by
  induction store with
  | nil =>
    simp only [storeSet, storeGet]
    rw [if_neg (fun heq => h heq.symm)]
  | cons kv rest ih =>
    obtain ⟨k, e0⟩ := kv
    by_cases hk : k = key
    · subst hk
      simp only [storeSet, if_pos rfl, storeGet]
      rw [if_neg (fun heq => h heq.symm), if_neg (fun heq => h heq.symm)]
    · simp only [storeSet, if_neg hk, storeGet]
      by_cases hk2 : k = key2
      · rw [if_pos hk2, if_pos hk2]
      · rw [if_neg hk2, if_neg hk2, ih]

/-- Claim C10: a denied checkRateLimit call returns the store unchanged —
the denied key keeps its exact count and resetTime, and no other key is
created, modified or removed. -/
theorem rate_limit_denial_frame (identifier : String) (config : RateLimitConfig)
    (store : RateLimitStore) (now : Nat)
    (h : (checkRateLimit identifier config store now).1.success = false) :
    (checkRateLimit identifier config store now).2 = store := by
  cases hget : storeGet store (mkKey config identifier) with
  | none =>
    rw [checkRateLimit_fresh identifier config store now hget] at h
    simp at h
  | some entry =>
    by_cases hexp : now > entry.resetTime
    · rw [checkRateLimit_expired identifier config store now entry hget hexp] at h
      simp at h
    · by_cases hcnt : entry.count ≥ config.maxRequests
      · rw [checkRateLimit_deny identifier config store now entry hget hexp hcnt]
      · rw [checkRateLimit_incr identifier config store now entry hget hexp (by omega)] at h
        simp at h

/-- Witness for C10: the sixth request against a full login window leaves
the store exactly as it was. -/
theorem rate_limit_denial_frame_witness :
    (checkRateLimit "ip" ⟨5, 900, some "login"⟩ [("login:ip", ⟨5, 1000⟩)] 500).2 =
      [("login:ip", ⟨5, 1000⟩)] :=
  rate_limit_denial_frame "ip" ⟨5, 900, some "login"⟩ [("login:ip", ⟨5, 1000⟩)] 500 (by decide)

/-- Claim C7: as long as every call touching a given key uses the same
maxRequests, the stored count under that key never exceeds maxRequests + 1;
a fresh or expired key is (re)created with count 1, and a live entry is
incremented only when the count-versus-limit check allows the request. -/
theorem rate_limit_count_invariant (key : String) (maxR : Nat) (identifier : String)
    (config : RateLimitConfig) (store : RateLimitStore) (now : Nat)
    (huniform : mkKey config identifier = key → config.maxRequests = maxR)
    (hinv : storeCountBound key maxR store) :
    storeCountBound key maxR (checkRateLimit identifier config store now).2 ∧
    ((storeGet store (mkKey config identifier) = none ∨
      (∃ e, storeGet store (mkKey config identifier) = some e ∧ now > e.resetTime)) →
      storeGet (checkRateLimit identifier config store now).2 (mkKey config identifier) =
        some ⟨1, now + config.windowSeconds * 1000⟩) ∧
    (∀ e, storeGet store (mkKey config identifier) = some e → ¬ now > e.resetTime →
      e.count < config.maxRequests →
      storeGet (checkRateLimit identifier config store now).2 (mkKey config identifier) =
        some ⟨e.count + 1, e.resetTime⟩) := by
  cases hget : storeGet store (mkKey config identifier) with
  | none =>
    rw [checkRateLimit_fresh identifier config store now hget]
    refine ⟨?_, fun _ => storeGet_storeSet_self store _ _, ?_⟩
    · intro e' hge'
      by_cases hkey : key = mkKey config identifier
      · rw [hkey, storeGet_storeSet_self store _ _] at hge'
        cases hge'
        exact Nat.le_add_left 1 maxR
      · rw [storeGet_storeSet_ne store _ key _ hkey] at hge'
        exact hinv e' hge'
    · intro e he
      cases he
  | some entry =>
    by_cases hexp : now > entry.resetTime
    · rw [checkRateLimit_expired identifier config store now entry hget hexp]
      refine ⟨?_, fun _ => storeGet_storeSet_self store _ _, ?_⟩
      · intro e' hge'
        by_cases hkey : key = mkKey config identifier
        · rw [hkey, storeGet_storeSet_self store _ _] at hge'
          cases hge'
          exact Nat.le_add_left 1 maxR
        · rw [storeGet_storeSet_ne store _ key _ hkey] at hge'
          exact hinv e' hge'
      · intro e he hl _
        cases he
        exact absurd hexp hl
    · by_cases hcnt : entry.count ≥ config.maxRequests
      · rw [checkRateLimit_deny identifier config store now entry hget hexp hcnt]
        refine ⟨hinv, ?_, ?_⟩
        · intro hcases
          rcases hcases with hnone | ⟨e, he, hex⟩
          · cases hnone
          · cases he
            exact absurd hex hexp
        · intro e he _ hlt
          cases he
          omega
      · rw [checkRateLimit_incr identifier config store now entry hget hexp (by omega)]
        refine ⟨?_, ?_, ?_⟩
        · intro e' hge'
          by_cases hkey : key = mkKey config identifier
          · rw [hkey, storeGet_storeSet_self store _ _] at hge'
            cases hge'
            have hmax := huniform hkey.symm
            show entry.count + 1 ≤ maxR + 1
            omega
          · rw [storeGet_storeSet_ne store _ key _ hkey] at hge'
            exact hinv e' hge'
        · intro hcases
          rcases hcases with hnone | ⟨e, he, hex⟩
          · cases hnone
          · cases he
            exact absurd hex hexp
        · intro e he _ _
          cases he
          exact storeGet_storeSet_self store _ _

/-- Witness for C7: a full login-window store keeps its count bounded by
maxRequests + 1 across a further (denied) call. -/
theorem rate_limit_count_invariant_witness :
    storeCountBound "login:ip" 5
      (checkRateLimit "ip" ⟨5, 900, some "login"⟩ [("login:ip", ⟨5, 1000⟩)] 500).2 :=
  (rate_limit_count_invariant "login:ip" 5 "ip" ⟨5, 900, some "login"⟩
    [("login:ip", ⟨5, 1000⟩)] 500 (fun _ => rfl)
    (fun e he => by
      simp [storeGet] at he
      cases he
      decide)).1

/-- Claim C3: with maxRequests = 5 and windowSeconds = 900, five calls for
one identifier within the window succeed with remaining 4,3,2,1,0; a sixth
call within the window is denied with remaining 0 and resetIn at most 900;
and a call strictly after the stored window reset succeeds with
remaining 4 again. -/
theorem rate_limit_window_scenario (pfx : Option String) (ident : String)
    (t1 t2 t3 t4 t5 t6 t7 : Nat)
    (h2 : t2 ≤ t1 + 900000) (h3 : t3 ≤ t1 + 900000) (h4 : t4 ≤ t1 + 900000)
    (h5 : t5 ≤ t1 + 900000) (h6 : t6 ≤ t1 + 900000) (h16 : t1 ≤ t6)
    (h7 : t1 + 900000 < t7) :
    ((rlSeq ident ⟨5, 900, pfx⟩ [] [t1, t2, t3, t4, t5, t6, t7]).1.map
        (fun r => (r.success, r.remaining)) =
      [(true, 4), (true, 3), (true, 2), (true, 1), (true, 0), (false, 0), (true, 4)]) ∧
    ∀ r6, (rlSeq ident ⟨5, 900, pfx⟩ [] [t1, t2, t3, t4, t5, t6, t7]).1.get? 5 = some r6 →
      r6.resetIn ≤ 900 := by
  have e1 : checkRateLimit ident ⟨5, 900, pfx⟩ [] t1 =
      (⟨true, 4, 900, 5⟩, [(mkKey ⟨5, 900, pfx⟩ ident, ⟨1, t1 + 900000⟩)]) := by
    rw [checkRateLimit_fresh ident ⟨5, 900, pfx⟩ [] t1 rfl]
    norm_num [storeSet]
  have g1 : storeGet [(mkKey ⟨5, 900, pfx⟩ ident, (⟨1, t1 + 900000⟩ : RateLimitEntry))]
      (mkKey ⟨5, 900, pfx⟩ ident) = some ⟨1, t1 + 900000⟩ := by simp [storeGet]
  have e2 : checkRateLimit ident ⟨5, 900, pfx⟩
      [(mkKey ⟨5, 900, pfx⟩ ident, ⟨1, t1 + 900000⟩)] t2 =
      (⟨true, 3, (t1 + 900000 - t2 + 999) / 1000, 5⟩,
       [(mkKey ⟨5, 900, pfx⟩ ident, ⟨2, t1 + 900000⟩)]) := by
    rw [checkRateLimit_incr ident ⟨5, 900, pfx⟩ _ t2 ⟨1, t1 + 900000⟩ g1
      (by show ¬ t2 > t1 + 900000; omega) (by show (1 : Nat) < 5; decide)]
    norm_num [storeSet]
  have g2 : storeGet [(mkKey ⟨5, 900, pfx⟩ ident, (⟨2, t1 + 900000⟩ : RateLimitEntry))]
      (mkKey ⟨5, 900, pfx⟩ ident) = some ⟨2, t1 + 900000⟩ := by simp [storeGet]
  have e3 : checkRateLimit ident ⟨5, 900, pfx⟩
      [(mkKey ⟨5, 900, pfx⟩ ident, ⟨2, t1 + 900000⟩)] t3 =
      (⟨true, 2, (t1 + 900000 - t3 + 999) / 1000, 5⟩,
       [(mkKey ⟨5, 900, pfx⟩ ident, ⟨3, t1 + 900000⟩)]) := by
    rw [checkRateLimit_incr ident ⟨5, 900, pfx⟩ _ t3 ⟨2, t1 + 900000⟩ g2
      (by show ¬ t3 > t1 + 900000; omega) (by show (2 : Nat) < 5; decide)]
    norm_num [storeSet]
  have g3 : storeGet [(mkKey ⟨5, 900, pfx⟩ ident, (⟨3, t1 + 900000⟩ : RateLimitEntry))]
      (mkKey ⟨5, 900, pfx⟩ ident) = some ⟨3, t1 + 900000⟩ := by simp [storeGet]
  have e4 : checkRateLimit ident ⟨5, 900, pfx⟩
      [(mkKey ⟨5, 900, pfx⟩ ident, ⟨3, t1 + 900000⟩)] t4 =
      (⟨true, 1, (t1 + 900000 - t4 + 999) / 1000, 5⟩,
       [(mkKey ⟨5, 900, pfx⟩ ident, ⟨4, t1 + 900000⟩)]) := by
    rw [checkRateLimit_incr ident ⟨5, 900, pfx⟩ _ t4 ⟨3, t1 + 900000⟩ g3
      (by show ¬ t4 > t1 + 900000; omega) (by show (3 : Nat) < 5; decide)]
    norm_num [storeSet]
  have g4 : storeGet [(mkKey ⟨5, 900, pfx⟩ ident, (⟨4, t1 + 900000⟩ : RateLimitEntry))]
      (mkKey ⟨5, 900, pfx⟩ ident) = some ⟨4, t1 + 900000⟩ := by simp [storeGet]
  have e5 : checkRateLimit ident ⟨5, 900, pfx⟩
      [(mkKey ⟨5, 900, pfx⟩ ident, ⟨4, t1 + 900000⟩)] t5 =
      (⟨true, 0, (t1 + 900000 - t5 + 999) / 1000, 5⟩,
       [(mkKey ⟨5, 900, pfx⟩ ident, ⟨5, t1 + 900000⟩)]) := by
    rw [checkRateLimit_incr ident ⟨5, 900, pfx⟩ _ t5 ⟨4, t1 + 900000⟩ g4
      (by show ¬ t5 > t1 + 900000; omega) (by show (4 : Nat) < 5; decide)]
    norm_num [storeSet]
  have g5 : storeGet [(mkKey ⟨5, 900, pfx⟩ ident, (⟨5, t1 + 900000⟩ : RateLimitEntry))]
      (mkKey ⟨5, 900, pfx⟩ ident) = some ⟨5, t1 + 900000⟩ := by simp [storeGet]
  have e6 : checkRateLimit ident ⟨5, 900, pfx⟩
      [(mkKey ⟨5, 900, pfx⟩ ident, ⟨5, t1 + 900000⟩)] t6 =
      (⟨false, 0, (t1 + 900000 - t6 + 999) / 1000, 5⟩,
       [(mkKey ⟨5, 900, pfx⟩ ident, ⟨5, t1 + 900000⟩)]) := by
    rw [checkRateLimit_deny ident ⟨5, 900, pfx⟩ _ t6 ⟨5, t1 + 900000⟩ g5
      (by show ¬ t6 > t1 + 900000; omega) (by show (5 : Nat) ≥ 5; decide)]
  have e7 : checkRateLimit ident ⟨5, 900, pfx⟩
      [(mkKey ⟨5, 900, pfx⟩ ident, ⟨5, t1 + 900000⟩)] t7 =
      (⟨true, 4, 900, 5⟩, [(mkKey ⟨5, 900, pfx⟩ ident, ⟨1, t7 + 900000⟩)]) := by
    rw [checkRateLimit_expired ident ⟨5, 900, pfx⟩ _ t7 ⟨5, t1 + 900000⟩ g5
      (by show t7 > t1 + 900000; omega)]
    norm_num [storeSet]
  constructor
  · simp only [rlSeq, e1, e2, e3, e4, e5, e6, e7, List.map_cons, List.map_nil]
  · simp only [rlSeq, e1, e2, e3, e4, e5, e6, e7]
    intro r6 hr6
    simp only [List.get?] at hr6
    cases hr6
    show (t1 + 900000 - t6 + 999) / 1000 ≤ 900
    omega

/-- Witness for C3: the scenario at concrete clocks 0,1,2,3,4,5 and 900001
with the login prefix. -/
theorem rate_limit_window_scenario_witness :
    ((rlSeq "ip" ⟨5, 900, some "login"⟩ [] [0, 1, 2, 3, 4, 5, 900001]).1.map
        (fun r => (r.success, r.remaining)) =
      [(true, 4), (true, 3), (true, 2), (true, 1), (true, 0), (false, 0), (true, 4)]) ∧
    ∀ r6, (rlSeq "ip" ⟨5, 900, some "login"⟩ [] [0, 1, 2, 3, 4, 5, 900001]).1.get? 5 = some r6 →
      r6.resetIn ≤ 900 :=
  rate_limit_window_scenario (some "login") "ip" 0 1 2 3 4 5 900001
    (by decide) (by decide) (by decide) (by decide) (by decide) (by decide) (by decide)

/-- Claim C6 (amended): the route-level guard validateCsrf does accept the
csrf_token cookie as fallback carrier — on a mutation from an authenticated
user with no x-csrf-token header and a valid token in the cookie it passes;
with no token in either carrier it fails with the 403 "CSRF token missing"
outcome, and with a present-but-invalid token it fails with the 403
"Invalid CSRF token" outcome. The middleware, however, demands the
x-csrf-token header itself on non-exempt API mutations from requests
bearing an auth token and answers 403 "CSRF token required" when it is
absent, regardless of the cookie — so a cookie-only request is rejected
before any route-level check runs. -/
theorem mutation_guard_csrf (req : JsRequest) (now : Nat) (user : TokenPayload) (tk : String) :
    (jsToUpperStr req.method ∈ ["POST", "PUT", "DELETE", "PATCH"] →
      getUserFromRequest req now = some user →
      req.headers "x-csrf-token" = none →
      jsTruthy (req.cookies "csrf_token") = true →
      verifyCsrfToken (undefStr (req.cookies "csrf_token")) user.id now = true →
      validateCsrf req now = none) ∧
    (jsToUpperStr req.method ∈ ["POST", "PUT", "DELETE", "PATCH"] →
      getUserFromRequest req now = some user →
      jsTruthy (jsOr (req.headers "x-csrf-token") (req.cookies "csrf_token")) = false →
      validateCsrf req now = some ("CSRF token missing", 403)) ∧
    (jsToUpperStr req.method ∈ ["POST", "PUT", "DELETE", "PATCH"] →
      getUserFromRequest req now = some user →
      jsOr (req.headers "x-csrf-token") (req.cookies "csrf_token") = some tk → tk ≠ "" →
      verifyCsrfToken tk user.id now = false →
      validateCsrf req now = some ("Invalid CSRF token", 403)) ∧
    (jsStartsWith req.pathname "/api/" = true →
      jsTruthy (jsOr (req.cookies "auth_token")
        ((req.headers "authorization").map (fun h => jsReplaceFirst h "Bearer " ""))) = true →
      jsToUpperStr req.method ∈ ["POST", "PUT", "DELETE", "PATCH"] →
      csrfExemptPaths.any (pathMatches req.pathname) = false →
      jsTruthy (req.headers "x-csrf-token") = false →
      middleware req = .csrfRequired) := by
  refine ⟨?_, ?_, ?_, ?_⟩
  · intro hm hu hh hc hv
    simp only [validateCsrf, hu]
    rw [if_neg (not_not_intro hm), hh]
    have hone : jsOr none (req.cookies "csrf_token") = req.cookies "csrf_token" := by
      simp [jsOr, jsTruthy]
    rw [hone, if_neg (by simp [hc]), if_neg (by simp [hv])]
  · intro hm hu hfalse
    simp only [validateCsrf, hu]
    rw [if_neg (not_not_intro hm), if_pos (by simp [hfalse])]
  · intro hm hu heq hne hv
    simp only [validateCsrf, hu]
    rw [if_neg (not_not_intro hm), heq,
      if_neg (by simp [jsTruthy, hne]), if_pos (by simp [undefStr, hv])]
  · intro hs ht hm hex hh
    simp only [middleware]
    rw [if_neg (fun hcond => hcond.2.2.2.2 hs),
      if_neg (fun hcond => hcond.2 ht),
      if_pos (⟨hs, ht⟩ :
        jsStartsWith req.pathname "/api/" = true ∧
        jsTruthy (jsOr (req.cookies "auth_token")
          ((req.headers "authorization").map (fun h => jsReplaceFirst h "Bearer " ""))) = true),
      if_pos ⟨hm, by simp [hex], by simp [hh]⟩]

/-- Witness for the amended C6 on the three concrete requests: cookie-only
token accepted by validateCsrf, no token missing, bad header token invalid,
and the middleware 403 for the cookie-only request. -/
theorem mutation_guard_csrf_witness :
    validateCsrf reqCookieOnlyCsrf 0 = none ∧
    validateCsrf reqNoCsrf 0 = some ("CSRF token missing", 403) ∧
    validateCsrf reqBadCsrf 0 = some ("Invalid CSRF token", 403) ∧
    middleware reqCookieOnlyCsrf = .csrfRequired :=
  ⟨(mutation_guard_csrf reqCookieOnlyCsrf 0 ⟨7, "a@b.c", "alice", false⟩ "garbage").1
      (by decide) (by decide) (by decide) (by decide) (by decide),
   (mutation_guard_csrf reqNoCsrf 0 ⟨7, "a@b.c", "alice", false⟩ "garbage").2.1
      (by decide) (by decide) (by decide),
   (mutation_guard_csrf reqBadCsrf 0 ⟨7, "a@b.c", "alice", false⟩ "garbage").2.2.1
      (by decide) (by decide) (by decide) (by decide) (by decide),
   (mutation_guard_csrf reqCookieOnlyCsrf 0 ⟨7, "a@b.c", "alice", false⟩ "garbage").2.2.2
      (by decide) (by decide) (by decide) (by decide) (by decide)⟩

/-- Counterexample to C6 as stated: reqCookieOnlyCsrf is an authenticated
POST to the non-exempt path /api/teams whose valid CSRF token travels only
in the csrf_token cookie; the route-level guard accepts it, but the request
pipeline's middleware rejects it with the 403 CSRF-missing outcome because
the x-csrf-token header is absent — the cookie fallback does not make the
mutation pass. -/
theorem middleware_cookie_only_csrf_cex :
    verifyCsrfToken (undefStr (reqCookieOnlyCsrf.cookies "csrf_token")) 7 0 = true ∧
    validateCsrf reqCookieOnlyCsrf 0 = none ∧
    middleware reqCookieOnlyCsrf = MwDecision.csrfRequired :=
  ⟨by decide, by decide, by decide⟩
